import Mathlib

/-!
Verification of the capture/verification session controller of
FaceWinUnlock-Tauri (src/UI/src/views/Faces/Add.vue).

The component is a single-threaded, cooperative session controller around an
external camera/face-detection backend reached through `invoke`.  We embed it
shallowly: the backend is an environment record holding the result each
`invoke` call would produce at this moment, session-local reactive state is an
explicit record, and every handler of the component becomes a state
transformer that additionally emits the observable events it performs
(detection calls, reschedules via requestAnimationFrame, camera acquisition,
user-facing error messages).
-/

namespace FaceAdd

/-- Result record of `check_face_from_img` / `check_face_from_camera`:
`res.data.display_base64` and `res.data.raw_base64`. -/
structure Frame where
  display_base64 : String
  raw_base64 : String
  deriving DecidableEq, Repr

/-- Result record of `verify_face`: an optional `display_base64` live frame and
the raw similarity `score`.  Scores are modelled as rationals. -/
structure VerifyData where
  display_base64 : Option String
  score : ℚ
  deriving DecidableEq, Repr

/-- The session-local reactive state of the component (`Add.vue` script setup):
refs and module-level mutable bindings used by the capture/verify logic. -/
structure SessionState where
  faceName : String
  threshold : ℤ
  capturedImage : String
  rawImageForSystem : String
  isCameraStreaming : Bool
  isLoopRunning : Bool
  verificationMode : Bool
  verifyingStreamImage : String
  matchConfidence : ℤ
  username : String
  password : String
  deriving DecidableEq, Repr

/-- Initial values of the refs in `Add.vue`. -/
def initialState : SessionState :=
  { faceName := ""
    threshold := 50
    capturedImage := ""
    rawImageForSystem := ""
    isCameraStreaming := false
    isLoopRunning := false
    verificationMode := false
    verifyingStreamImage := ""
    matchConfidence := 0
    username := ""
    password := "" }

/-- The environment: the outcome each backend `invoke` call would produce.
`verify_face` receives the reference payload passed by the caller. -/
structure Backend where
  open_camera : Except String Unit
  stop_camera : Except String Unit
  check_face_from_camera : Except String Frame
  verify_face : String → Except String VerifyData

/-- Observable events a handler performs, in order. -/
inductive Event where
  | detectCall
  | reschedule
  | openCameraCall
  | cameraAcquired
  | startLoop
  | stopCameraCall
  | surfaceError (msg : String)
  deriving DecidableEq, Repr

/-- `rawImageForSystem.split(',')[1]` — the payload sent as `referenceBase64`. -/
def refPayload (raw : String) : String :=
  (raw.splitOn ",").getD 1 ""

/-- The transient-condition message matched by the loop's catch block. -/
def noFaceMsg : String := "未检测到人脸"

/-- `pat` is an initial segment of `l` (character lists). -/
def startsWithChars : List Char → List Char → Bool
  | [], _ => true
  | _ :: _, [] => false
  | p :: ps, c :: cs => p == c && startsWithChars ps cs

/-- `pat` occurs contiguously somewhere in `l`. -/
def occursIn (pat : List Char) : List Char → Bool
  | [] => startsWithChars pat []
  | c :: cs => startsWithChars pat (c :: cs) || occursIn pat cs

/-- `info.includes("未检测到人脸")`: the formatted error text contains the
no-face marker. -/
def includesNoFace (info : String) : Bool :=
  occursIn noFaceMsg.toList info.toList

/-- The Verification Scorer inside `streamLoop`:
`rawScore > 0 ? Math.floor(Math.min(100, (rawScore / 1.0) * 100)) : 0`. -/
def computeConfidence (rawScore : ℚ) : ℤ :=
  if rawScore > 0 then Int.floor (min 100 (rawScore / 1 * 100)) else 0

/-- The verify-mode state update of a successful `verify_face` tick:
`if(res.data.display_base64) { verifyingStreamImage.value = ... }` followed by
the confidence update (an empty string is falsy in JS). -/
def updateVerify (s : SessionState) (v : VerifyData) : SessionState :=
  let s1 := match v.display_base64 with
    | some d => if d = "" then s else { s with verifyingStreamImage := d }
    | none => s
  { s1 with matchConfidence := computeConfidence v.score }

/-- One invocation of `streamLoop` (one tick of the frame loop): bail out if
`isLoopRunning` is false; otherwise perform exactly one detection call
(mode-dependent), update state, and schedule the next tick via
`requestAnimationFrame` — except that a generic (non-no-face) error only
surfaces a message and schedules nothing. -/
def streamLoop (b : Backend) (s : SessionState) : SessionState × List Event :=
  if s.isLoopRunning = false then (s, [])
  else if s.verificationMode = false then
    match b.check_face_from_camera with
    | .ok f =>
        ({ s with capturedImage := f.display_base64, rawImageForSystem := f.raw_base64 },
          [.detectCall, .reschedule])
    | .error e =>
        if includesNoFace e then (s, [.detectCall, .reschedule])
        else (s, [.detectCall, .surfaceError e])
  else
    match b.verify_face (refPayload s.rawImageForSystem) with
    | .ok v => (updateVerify s v, [.detectCall, .reschedule])
    | .error e =>
        if includesNoFace e then (s, [.detectCall, .reschedule])
        else (s, [.detectCall, .surfaceError e])

/-- A chain of `n` consecutive `requestAnimationFrame` ticks of `streamLoop`
against a fixed backend environment. -/
def runTicks (b : Backend) (s : SessionState) : Nat → SessionState × List Event
  | 0 => (s, [])
  | n + 1 =>
      let t := streamLoop b s
      let r := runTicks b t.1 n
      (r.1, t.2 ++ r.2)

/-- `startCamera`: `invoke("open_camera")`, on success set the streaming and
loop flags and start `streamLoop`; on failure surface the error. -/
def startCamera (b : Backend) (s : SessionState) : SessionState × List Event :=
  match b.open_camera with
  | .ok _ =>
      ({ s with isCameraStreaming := true, isLoopRunning := true },
        [.openCameraCall, .cameraAcquired, .startLoop])
  | .error e => (s, [.openCameraCall, .surfaceError e])

/-- `stopCamera`: clear `isLoopRunning` first, then `invoke("stop_camera")`;
the promise resolves on success and rejects (after surfacing the error) on
failure. -/
def stopCamera (b : Backend) (s : SessionState) :
    SessionState × Except String Unit × List Event :=
  let s1 := { s with isLoopRunning := false }
  match b.stop_camera with
  | .ok _ => (s1, .ok (), [.stopCameraCall])
  | .error e => (s1, .error e, [.stopCameraCall, .surfaceError e])

/-- `stopCapture` (the cancel button): `stopCamera().then(clear three fields)
.catch(()=>{})` — the clears run only on the resolved branch. -/
def stopCapture (b : Backend) (s : SessionState) : SessionState × List Event :=
  match stopCamera b s with
  | (s1, .ok _, ev) =>
      ({ s1 with isCameraStreaming := false, capturedImage := "", rawImageForSystem := "" }, ev)
  | (s1, .error _, ev) => (s1, ev)

/-- `confirmCapture`: `stopCamera().then(isCameraStreaming = false).catch(()=>{})`. -/
def confirmCapture (b : Backend) (s : SessionState) : SessionState × List Event :=
  match stopCamera b s with
  | (s1, .ok _, ev) => ({ s1 with isCameraStreaming := false }, ev)
  | (s1, .error _, ev) => (s1, ev)

/-- `toggleVerification`: flip `verificationMode` first; when entering verify
mode, `invoke("open_camera")` and on success start the loop (errors only
surface a message); when leaving, `stopCamera().then(clear stream image)`. -/
def toggleVerification (b : Backend) (s : SessionState) : SessionState × List Event :=
  let s0 := { s with verificationMode := !s.verificationMode }
  if s0.verificationMode then
    match b.open_camera with
    | .ok _ =>
        ({ s0 with isLoopRunning := true },
          [.openCameraCall, .cameraAcquired, .startLoop])
    | .error e => (s0, [.openCameraCall, .surfaceError e])
  else
    match stopCamera b s0 with
    | (s1, .ok _, ev) => ({ s1 with verifyingStreamImage := "" }, ev)
    | (s1, .error _, ev) => (s1, ev)

/-- Outcome of `handleSave`: either an early-return validation warning with no
backend call, or the `save_face_registration` call with its arguments. -/
inductive SaveOutcome where
  | validationMsg (msg : String)
  | saved (name : String) (referenceBase64 : String)
  deriving DecidableEq, Repr

/-- `handleSave`: guard on empty username/password, then on empty raw image,
then `invoke("save_face_registration", {name: faceName || '', ...})`. -/
def handleSave (s : SessionState) : SaveOutcome :=
  if s.username = "" ∨ s.password = "" then
    .validationMsg "请填写完整的账号密码信息"
  else if s.rawImageForSystem = "" then
    .validationMsg "请先录入面容图片"
  else
    .saved (if s.faceName = "" then "" else s.faceName) (refPayload s.rawImageForSystem)

/-- The template's confidence-tag class binding:
`matchConfidence > (threshold) ? 'match' : 'mismatch'`. -/
def confidenceTagClass (matchConfidence threshold : ℤ) : String :=
  if matchConfidence > threshold then "match" else "mismatch"

/-- Modelled from the spec: the camera backend (`open_camera` on the Rust
side) is not among the sources; per §6/§7, `openCamera` fails with
`ResourceBusyError` when the camera is already held, and succeeds
otherwise. -/
def specOpenCamera (held : Bool) : Except String Unit :=
  if held then .error "ResourceBusyError" else .ok ()

/-! Concrete fixtures used to exercise the model. -/

/-- A running enrollment-capture session. -/
def sRunning : SessionState :=
  { initialState with isCameraStreaming := true, isLoopRunning := true }

/-- A running session holding a captured frame. -/
def sCapturedStreaming : SessionState :=
  { initialState with
    capturedImage := "disp"
    rawImageForSystem := "data:image/png;base64,abc"
    isCameraStreaming := true
    isLoopRunning := true }

/-- A state ready to save: captured frame and filled credentials, empty alias. -/
def sSaveReady : SessionState :=
  { initialState with
    username := "user"
    password := "pw"
    capturedImage := "disp"
    rawImageForSystem := "data:image/png;base64,abc" }

/-- Backend whose detection calls fail with a generic (non-no-face) error. -/
def bGenericError : Backend :=
  { open_camera := .ok ()
    stop_camera := .ok ()
    check_face_from_camera := .error "摄像头读取失败"
    verify_face := fun _ => .error "摄像头读取失败" }

/-- Backend whose detection calls fail with the transient no-face error. -/
def bNoFace : Backend :=
  { open_camera := .ok ()
    stop_camera := .ok ()
    check_face_from_camera := .error "未检测到人脸"
    verify_face := fun _ => .error "未检测到人脸" }

/-- Backend whose `stop_camera` call fails. -/
def bStopFail : Backend :=
  { open_camera := .ok ()
    stop_camera := .error "摄像头释放失败"
    check_face_from_camera := .error "未检测到人脸"
    verify_face := fun _ => .error "未检测到人脸" }

/-- Backend whose `open_camera` succeeds. -/
def bOpenOk : Backend :=
  { open_camera := .ok ()
    stop_camera := .ok ()
    check_face_from_camera := .error "未检测到人脸"
    verify_face := fun _ => .error "未检测到人脸" }

/-- Backend whose `open_camera` fails with a device error. -/
def bOpenFail : Backend :=
  { open_camera := .error "DeviceError"
    stop_camera := .ok ()
    check_face_from_camera := .error "未检测到人脸"
    verify_face := fun _ => .error "未检测到人脸" }

/-- Backend whose `open_camera` behaves as the spec-modelled camera with the
device already held. -/
def bBusy : Backend :=
  { open_camera := specOpenCamera true
    stop_camera := .ok ()
    check_face_from_camera := .error "未检测到人脸"
    verify_face := fun _ => .error "未检测到人脸" }

/-! Claim theorems. -/

/-- C1: the confidence percentage equals
`floor(min(100, max(0, similarity_score) * 100))` when `similarity_score > 0`
and `0` otherwise; in particular it is `0` for non-positive scores,
`floor(score * 100)` on `(0, 1]`, and clamped to exactly `100` above `1`. -/
theorem scorer_confidence_formula (s : ℚ) :
    computeConfidence s = (if 0 < s then Int.floor (min 100 (max 0 s * 100)) else 0) ∧
    (s ≤ 0 → computeConfidence s = 0) ∧
    (0 < s → s ≤ 1 → computeConfidence s = Int.floor (s * 100)) ∧
    (1 < s → computeConfidence s = 100) := by
  unfold computeConfidence
  refine ⟨?_, ?_, ?_, ?_⟩
  · split_ifs with h
    · rw [max_eq_right h.le, div_one]
    · rfl
  · intro h
    rw [if_neg (not_lt.mpr h)]
  · intro h0 h1
    rw [if_pos h0, div_one, min_eq_right (by nlinarith : s * 100 ≤ (100 : ℚ))]
  · intro h1
    rw [if_pos (by linarith : (0 : ℚ) < s), div_one,
      min_eq_left (by nlinarith : (100 : ℚ) ≤ s * 100)]
    norm_num

/-- Witness for C1 at the concrete score 2 (clamped to 100). -/
theorem scorer_confidence_formula_witness : computeConfidence 2 = 100 :=
  (scorer_confidence_formula 2).2.2.2 (by norm_num)

/-- C8: the sample is classified `match` iff confidence is strictly greater
than the threshold; equality classifies as `mismatch`. -/
theorem confidenceTag_match_iff (c t : ℤ) :
    (confidenceTagClass c t = "match" ↔ t < c) ∧
    (c = t → confidenceTagClass c t = "mismatch") := by
  unfold confidenceTagClass
  constructor
  · split_ifs with h
    · simp [h]
    · constructor
      · intro hs
        exact absurd hs (by decide)
      · intro hlt
        exact absurd hlt h
  · intro he
    split_ifs with h
    · omega
    · rfl

/-- Witness for C8 at the boundary confidence = threshold = 50. -/
theorem confidenceTag_match_iff_witness : confidenceTagClass 50 50 = "mismatch" :=
  (confidenceTag_match_iff 50 50).2 rfl

/-- C9: saving with empty username/password or an empty raw image fails with a
validation warning and performs no backend call; otherwise the save proceeds,
the alias defaulting to the empty string via `faceName || ''`. -/
theorem handleSave_validation (s : SessionState) :
    ((s.username = "" ∨ s.password = "" ∨ s.rawImageForSystem = "") →
      ∃ m, handleSave s = .validationMsg m) ∧
    (s.username ≠ "" → s.password ≠ "" → s.rawImageForSystem ≠ "" →
      handleSave s = .saved (if s.faceName = "" then "" else s.faceName)
        (refPayload s.rawImageForSystem)) := by
  unfold handleSave
  constructor
  · intro h
    by_cases h1 : s.username = "" ∨ s.password = ""
    · exact ⟨"请填写完整的账号密码信息", by simp [h1]⟩
    · have h2 : s.rawImageForSystem = "" := by tauto
      exact ⟨"请先录入面容图片", by simp [h1, h2]⟩
  · intro h1 h2 h3
    simp [h1, h2, h3]

/-- Witness for C9: empty alias, valid frame and credentials — save proceeds
with alias defaulted to the empty string. -/
theorem handleSave_validation_witness :
    handleSave sSaveReady = .saved "" (refPayload sSaveReady.rawImageForSystem) :=
  (handleSave_validation sSaveReady).2 (by decide) (by decide) (by decide)

/-- C2 fails on the code: on a generic (non-no-face) detection error the catch
block only surfaces the message — `requestAnimationFrame` is not called, so at
a concrete running state with a generic backend error the tick surfaces the
error but does not reschedule. -/
theorem streamLoop_generic_error_cex :
    Event.surfaceError "摄像头读取失败" ∈ (streamLoop bGenericError sRunning).2 ∧
    Event.reschedule ∉ (streamLoop bGenericError sRunning).2 := by decide

/-- C2 amended: a non-no-face detection error is surfaced to the user and the
loop does not reschedule — the tick schedules no next tick, so the loop
self-terminates on generic errors (a stop request is not the only way the
rescheduling chain ends). -/
theorem streamLoop_generic_error_surfaced_not_rescheduled
    (b : Backend) (s : SessionState) (e : String)
    (hrun : s.isLoopRunning = true) (hnf : includesNoFace e = false) :
    (s.verificationMode = false → b.check_face_from_camera = .error e →
      streamLoop b s = (s, [.detectCall, .surfaceError e])) ∧
    (s.verificationMode = true → b.verify_face (refPayload s.rawImageForSystem) = .error e →
      streamLoop b s = (s, [.detectCall, .surfaceError e])) := by
  constructor
  · intro hm hd
    unfold streamLoop
    rw [hrun, hm, hd]
    simp [hnf]
  · intro hm hd
    unfold streamLoop
    rw [hrun, hm, hd]
    simp [hnf]

/-- Witness for amended C2 at a concrete running state and generic error. -/
theorem streamLoop_generic_error_witness :
    streamLoop bGenericError sRunning =
      (sRunning, [Event.detectCall, Event.surfaceError "摄像头读取失败"]) :=
  (streamLoop_generic_error_surfaced_not_rescheduled bGenericError sRunning
    "摄像头读取失败" rfl (by decide)).1 rfl rfl

/-- C3 fails on the code: when `stop_camera` rejects, `stopCapture`'s `.then`
branch never runs, so at a concrete captured streaming state neither image
field nor the streaming flag is cleared. -/
theorem stopCapture_release_failure_cex :
    (stopCapture bStopFail sCapturedStreaming).1.capturedImage = "disp" ∧
    (stopCapture bStopFail sCapturedStreaming).1.rawImageForSystem ≠ "" ∧
    (stopCapture bStopFail sCapturedStreaming).1.isCameraStreaming = true := by decide

/-- C3 amended: `stopCapture` always clears the loop-running flag (set before
the release call), but clears the two CapturedFrame fields and the streaming
flag only when the camera release succeeds; on release failure the error is
surfaced and those three fields keep their old values. -/
theorem stopCapture_clears_on_success_only (b : Backend) (s : SessionState) :
    (stopCapture b s).1.isLoopRunning = false ∧
    (∀ u, b.stop_camera = .ok u →
      (stopCapture b s).1 =
        { s with isLoopRunning := false, isCameraStreaming := false,
                 capturedImage := "", rawImageForSystem := "" }) ∧
    (∀ e, b.stop_camera = .error e →
      (stopCapture b s).1 = { s with isLoopRunning := false } ∧
      Event.surfaceError e ∈ (stopCapture b s).2) := by
  unfold stopCapture stopCamera
  cases h : b.stop_camera with
  | ok u => simp [h]
  | error e => simp [h]

/-- Witness for amended C3: with a succeeding release, all fields clear. -/
theorem stopCapture_clears_on_success_only_witness :
    (stopCapture bGenericError sCapturedStreaming).1 =
      { sCapturedStreaming with
        isLoopRunning := false
        isCameraStreaming := false
        capturedImage := ""
        rawImageForSystem := "" } :=
  (stopCapture_clears_on_success_only bGenericError sCapturedStreaming).2.1 () rfl

/-- C4 fails on the code: `toggleVerification` performs no captured-frame
precondition check — at the initial state (empty raw image) it still flips the
mode flag (state changed, no PreconditionError) and attempts camera
acquisition. -/
theorem toggleVerification_no_precondition_cex :
    initialState.rawImageForSystem = "" ∧
    (toggleVerification bOpenOk initialState).1 ≠ initialState ∧
    Event.openCameraCall ∈ (toggleVerification bOpenOk initialState).2 := by decide

/-- C4 amended: entering verify mode is unguarded — even with an empty raw
image, `toggleVerification` flips the mode flag to true and attempts camera
acquisition; no precondition failure path exists in the handler (the UI merely
hides the toggle button when no frame is captured). -/
theorem toggleVerification_enter_unguarded (b : Backend) (s : SessionState)
    (hmode : s.verificationMode = false) :
    Event.openCameraCall ∈ (toggleVerification b s).2 ∧
    (toggleVerification b s).1.verificationMode = true := by
  unfold toggleVerification
  rw [hmode]
  cases h : b.open_camera with
  | ok u => simp [h]
  | error e => simp [h]

/-- Witness for amended C4 at the initial state (empty raw image). -/
theorem toggleVerification_enter_unguarded_witness :
    Event.openCameraCall ∈ (toggleVerification bOpenOk initialState).2 ∧
    (toggleVerification bOpenOk initialState).1.verificationMode = true :=
  toggleVerification_enter_unguarded bOpenOk initialState rfl

/-- C5: with the camera already held, the spec-modelled backend refuses the
second `open_camera` with `ResourceBusyError`; `startCamera` then leaves the
session state unchanged, acquires no second camera handle, starts no loop, and
surfaces the busy error. -/
theorem startCamera_busy_guard (b : Backend) (s : SessionState)
    (hheld : b.open_camera = specOpenCamera true) :
    (startCamera b s).1 = s ∧
    Event.cameraAcquired ∉ (startCamera b s).2 ∧
    Event.startLoop ∉ (startCamera b s).2 ∧
    Event.surfaceError "ResourceBusyError" ∈ (startCamera b s).2 := by
  have h : b.open_camera = .error "ResourceBusyError" := hheld
  unfold startCamera
  rw [h]
  simp

/-- Witness for C5 at a concrete held-camera backend and running state. -/
theorem startCamera_busy_guard_witness :
    (startCamera bBusy sCapturedStreaming).1 = sCapturedStreaming ∧
    Event.cameraAcquired ∉ (startCamera bBusy sCapturedStreaming).2 ∧
    Event.startLoop ∉ (startCamera bBusy sCapturedStreaming).2 ∧
    Event.surfaceError "ResourceBusyError" ∈ (startCamera bBusy sCapturedStreaming).2 :=
  startCamera_busy_guard bBusy sCapturedStreaming rfl

/-- C6: any number of consecutive ticks whose detection call raises the
transient no-face error are all swallowed — the state is unchanged, every tick
reschedules, no error is ever surfaced, and the session stays running. -/
theorem streamLoop_noface_swallowed (b : Backend) (s : SessionState) (e : String) (n : Nat)
    (hrun : s.isLoopRunning = true)
    (hdet : (s.verificationMode = false ∧ b.check_face_from_camera = .error e) ∨
            (s.verificationMode = true ∧
              b.verify_face (refPayload s.rawImageForSystem) = .error e))
    (hnf : includesNoFace e = true) :
    (runTicks b s n).1 = s ∧
    (∀ m, Event.surfaceError m ∉ (runTicks b s n).2) ∧
    (runTicks b s n).2.count Event.reschedule = n ∧
    (runTicks b s n).1.isLoopRunning = true := by
  have htick : streamLoop b s = (s, [.detectCall, .reschedule]) := by
    rcases hdet with ⟨hm, hd⟩ | ⟨hm, hd⟩ <;>
      · unfold streamLoop
        rw [hrun, hm, hd]
        simp [hnf]
  have key : ∀ k, (runTicks b s k).1 = s ∧
      (∀ m, Event.surfaceError m ∉ (runTicks b s k).2) ∧
      (runTicks b s k).2.count Event.reschedule = k := by
    intro k
    induction k with
    | zero =>
        refine ⟨rfl, ?_, rfl⟩
        intro m
        simp [runTicks]
    | succ k ih =>
        obtain ⟨ih1, ih2, ih3⟩ := ih
        have hstep : runTicks b s (k + 1) =
            ((runTicks b s k).1,
              [Event.detectCall, Event.reschedule] ++ (runTicks b s k).2) := by
          simp only [runTicks, htick]
        refine ⟨?_, ?_, ?_⟩
        · rw [hstep]; exact ih1
        · intro m
          rw [hstep]
          simp [List.mem_append, ih2 m]
        · rw [hstep]
          simp [List.count_append, ih3]
  obtain ⟨k1, k2, k3⟩ := key n
  exact ⟨k1, k2, k3, by rw [k1]; exact hrun⟩

/-- Witness for C6: five consecutive no-face ticks at a concrete state. -/
theorem streamLoop_noface_swallowed_witness :
    (runTicks bNoFace sRunning 5).1 = sRunning ∧
    (∀ m, Event.surfaceError m ∉ (runTicks bNoFace sRunning 5).2) ∧
    (runTicks bNoFace sRunning 5).2.count Event.reschedule = 5 ∧
    (runTicks bNoFace sRunning 5).1.isLoopRunning = true :=
  streamLoop_noface_swallowed bNoFace sRunning "未检测到人脸" 5 rfl
    (Or.inl ⟨rfl, rfl⟩) (by decide)

/-- C7: every tick performs at most one detection call — exactly one when the
loop flag is set; a cleared flag makes the tick exit before any work (stop
takes effect at the tick boundary, never mid-call); and a reschedule happens
only as the final event of a tick whose single detection call has returned. -/
theorem streamLoop_single_inflight (b : Backend) (s : SessionState) :
    (streamLoop b s).2.count Event.detectCall ≤ 1 ∧
    (s.isLoopRunning = false → streamLoop b s = (s, [])) ∧
    (s.isLoopRunning = true → (streamLoop b s).2.count Event.detectCall = 1) ∧
    (Event.reschedule ∈ (streamLoop b s).2 →
      (streamLoop b s).2 = [Event.detectCall, Event.reschedule]) := by
  unfold streamLoop
  cases hrun : s.isLoopRunning with
  | false => simp
  | true =>
      cases hm : s.verificationMode with
      | false =>
          cases hd : b.check_face_from_camera with
          | ok f => simp
          | error e =>
              by_cases hnf : includesNoFace e = true <;> simp [hnf]
      | true =>
          cases hd : b.verify_face (refPayload s.rawImageForSystem) with
          | ok v => simp
          | error e =>
              by_cases hnf : includesNoFace e = true <;> simp [hnf]

/-- Witness for C7 at a concrete running state: exactly one detection call. -/
theorem streamLoop_single_inflight_witness :
    (streamLoop bNoFace sRunning).2.count Event.detectCall = 1 :=
  (streamLoop_single_inflight bNoFace sRunning).2.2.1 rfl

/-- C10: entering verify mode flips the mode flag before the camera call and
never rolls it back — if `open_camera` fails, the state shows verify mode
active while no camera was acquired and no frame loop was started. -/
theorem toggleVerification_open_failure_state (b : Backend) (s : SessionState) (e : String)
    (hmode : s.verificationMode = false) (hloop : s.isLoopRunning = false)
    (hopen : b.open_camera = .error e) :
    (toggleVerification b s).1 = { s with verificationMode := true } ∧
    (toggleVerification b s).1.verificationMode = true ∧
    (toggleVerification b s).1.isLoopRunning = false ∧
    Event.cameraAcquired ∉ (toggleVerification b s).2 ∧
    Event.startLoop ∉ (toggleVerification b s).2 ∧
    Event.surfaceError e ∈ (toggleVerification b s).2 := by
  unfold toggleVerification
  rw [hmode, hopen]
  simp [hloop]

/-- Witness for C10 at the initial state with a failing camera open. -/
theorem toggleVerification_open_failure_state_witness :
    (toggleVerification bOpenFail initialState).1 =
      { initialState with verificationMode := true } ∧
    (toggleVerification bOpenFail initialState).1.verificationMode = true ∧
    (toggleVerification bOpenFail initialState).1.isLoopRunning = false ∧
    Event.cameraAcquired ∉ (toggleVerification bOpenFail initialState).2 ∧
    Event.startLoop ∉ (toggleVerification bOpenFail initialState).2 ∧
    Event.surfaceError "DeviceError" ∈ (toggleVerification bOpenFail initialState).2 :=
  toggleVerification_open_failure_state bOpenFail initialState "DeviceError" rfl rfl rfl

end FaceAdd
